import Mathlib

set_option maxRecDepth 100000

/-!
Verification development for the SpineML network-server connection engine
(SpineMLConnection.h).  The source is a single C++ header implementing, per
TCP connection: a 4-stage handshake (doHandshake), a steady-state read path
(doReadFromClient), a steady-state write path with acknowledgement flow
control (doWriteToClient), and mutex-guarded FIFO buffer accessors
(addNum, addData, getDataSize, popFront).

Modelling conventions (shallow embedding):
- Bytes on the wire are naturals (0..255).  The C++ compares chars against
  small positive sentinel codes (31..46), for which signed-char versus
  unsigned comparison outcomes coincide, so Nat equality is faithful.
- The socket is modelled by a Wire record: a pending byte stream, a
  schedule saying how many bytes the kernel delivers on each successive
  read call (an exhausted schedule means: deliver everything available),
  and a schedule of success flags for each successive one-byte write.
- Multi-byte arithmetic follows the source: the 4-byte fields are decoded
  little-endian; the data size is stored in an unsigned 32-bit variable,
  while the name length is stored in a signed 32-bit int (toSigned32
  models the wrap-around that every mainstream compiler implements for
  the shift into the sign bit).
- Mutex lock/unlock calls are no-ops in this single-threaded model.
- double values are only copied, never computed with, so buffer elements
  are modelled by an opaque numeric type (Int).
- The loop in doHandshake is expressed with a fuel parameter; each
  iteration either advances the stage (at most 4 times, resetting the
  stall counter) or increments the stall counter noData (which the loop
  bounds by 100), so at most 4 * 101 + 2 iterations can occur and fuel
  600 is never exhausted; the fuel-out sentinel result code -2 is
  unreachable from doHandshake.
- A C++ null-pointer dereference (reading the data deque before the
  handshake attached it) has no defined result; the model returns a
  sentinel (result code -2, or the PopRes.nullDeref constructor) at
  exactly the spots where the source would dereference null.  Likewise
  a handshake name-length field whose signed 32-bit value is negative
  makes the source declare a variable-length array of nonpositive
  extent — undefined behaviour — and the model stops there with the
  distinct sentinel result code -3 rather than inventing an outcome.
-/

namespace SpineML

/-! SpineML tcp/ip comms flags, from the defines at the top of the header. -/

def RESP_DATA_NUMS : Nat := 31
def RESP_DATA_SPIKES : Nat := 32
def RESP_DATA_IMPULSES : Nat := 33
def RESP_HELLO : Nat := 41
def RESP_RECVD : Nat := 42
def AM_SOURCE : Nat := 45
def AM_TARGET : Nat := 46
def NOT_SET : Nat := 99
def NO_DATA_MAX_COUNT : Nat := 100
def ECONNRESET : Nat := 104

/-- Connection state: the fields of class SpineMLConnection that the
protocol engine reads or writes.  data models the deque pointer
(Option.none = null pointer, as set by the constructor); doublebuf models
the scratch array pointer by recording only its allocated capacity. -/
@[ext]
structure Conn where
  established : Bool
  failed : Bool
  finished : Bool
  unacknowledgedDataSent : Bool
  noData : Nat
  clientConnectionName : List Nat
  clientDataDirection : Nat
  clientDataType : Nat
  clientDataSize : Nat
  data : Option (List Int)
  doublebuf : Option Nat
  deriving DecidableEq

/-- The state established by the SpineMLConnection constructor. -/
def connInit : Conn :=
  { established := false
    failed := false
    finished := false
    unacknowledgedDataSent := false
    noData := 0
    clientConnectionName := []
    clientDataDirection := NOT_SET
    clientDataType := NOT_SET
    clientDataSize := 1
    data := Option.none
    doublebuf := Option.none }

/-- The network environment seen by the handshake: the bytes the client
has sent but the server has not yet consumed, a per-read-call delivery
schedule (how many bytes the kernel hands over on each read call; when
the schedule is exhausted, everything available is delivered), and a
per-write-call success schedule for the one-byte acknowledgement writes
(when exhausted, writes succeed). -/
structure Wire where
  stream : List Nat
  sched : List Nat
  wsched : List Bool
  deriving DecidableEq

/-- One call of read(fd, buf, n): delivers at most n bytes, at most the
current schedule entry, and at most what the stream still holds. -/
def netRead (n : Nat) (w : Wire) : List Nat × Wire :=
  let avail := w.sched.headD w.stream.length
  let bs := w.stream.take (min n avail)
  (bs, { stream := w.stream.drop bs.length, sched := w.sched.tail, wsched := w.wsched })

/-- One call of write(fd, buf, 1) for an acknowledgement byte: returns
whether the write transferred the byte. -/
def netWrite (w : Wire) : Bool × Wire :=
  (w.wsched.headD true, { w with wsched := w.wsched.tail })

/-- Little-endian decoding of a 4-byte buffer, as written in the source:
smallbuf0 or smallbuf1 shl 8 or smallbuf2 shl 16 or smallbuf3 shl 24. -/
def decodeLE4 (l : List Nat) : Nat :=
  match l with
  | [b0, b1, b2, b3] => b0 + b1 * 256 + b2 * 65536 + b3 * 16777216
  | _ => 0

/-- Little-endian encoding of a value below 2^32 into 4 bytes. -/
def le4 (n : Nat) : List Nat :=
  [n % 256, n / 256 % 256, n / 65536 % 256, n / 16777216 % 256]

/-- Reinterpretation of an unsigned 32-bit value as the signed int the
source stores the name length in (two's-complement wrap-around). -/
def toSigned32 (u : Nat) : Int :=
  if u < 2 ^ 31 then (u : Int) else (u : Int) - 2 ^ 32

/-- Outcome of one iteration of the handshake loop body: a fatal
protocol failure (the source sets failed := true and returns -1), a
continuation with the next stage value, or the undefined-behaviour
marker for the one iteration path on which the source executes an
operation with no defined result (the negative-extent namebuf
declaration at stage GETTINGNAME, see hsStep). -/
inductive HSOut where
  | fail (c : Conn) (w : Wire)
  | next (stage : Nat) (c : Conn) (w : Wire)
  | undef (c : Conn) (w : Wire)
  deriving DecidableEq

/-- One iteration of the body of the while loop in doHandshake, given the
current handshakeStage.  Stage numbering follows the CS_HS_* defines:
0 = GETTINGTARGET, 1 = GETTINGDATATYPE, 2 = GETTINGDATASIZE,
3 = GETTINGNAME, 4 = DONE.  For a nonnegative name length the
variable-length namebuf allocation is not modelled (only the bytes read
into it are); the read count passed for the name is the size_t
conversion of the signed int nameSize, as in the call
read(connectingSocket, namebuf, nameSize).  When the 4 length bytes make
the signed int nameSize negative (unsigned value at least 2^31 — already
the shift of the top byte into the sign bit overflows int), the sanity
check nameSize > 1024 passes and the source then declares
char namebuf[1+nameSize] with nonpositive extent: undefined behaviour,
marked by the HSOut.undef sentinel instead of any invented outcome. -/
def hsStep : Nat → Conn → Wire → HSOut
  | 0, c, w =>
    let (bs, w1) := netRead 1 w
    if bs.length = 1 then
      let b0 := bs.headD 0
      if b0 = AM_SOURCE ∨ b0 = AM_TARGET then
        let c1 := { c with clientDataDirection := b0 }
        let (ok, w2) := netWrite w1
        if ok then HSOut.next 1 { c1 with noData := 0 } w2
        else HSOut.fail { c1 with failed := true } w2
      else HSOut.fail { c with clientDataDirection := NOT_SET, failed := true } w1
    else HSOut.next 0 { c with noData := c.noData + 1 } w1
  | 1, c, w =>
    let (bs, w1) := netRead 1 w
    if bs.length = 1 then
      let b0 := bs.headD 0
      if b0 = RESP_DATA_NUMS then
        let c1 := { c with clientDataType := b0 }
        let (ok, w2) := netWrite w1
        if ok then HSOut.next 2 { c1 with noData := 0 } w2
        else HSOut.fail { c1 with failed := true } w2
      else
        -- RESP_DATA_SPIKES and RESP_DATA_IMPULSES are recognized but
        -- unimplemented; they fail exactly like any other wrong byte.
        HSOut.fail { c with failed := true } w1
    else HSOut.next 1 { c with noData := c.noData + 1 } w1
  | 2, c, w =>
    let (bs, w1) := netRead 4 w
    if bs.length = 4 then
      let sz := decodeLE4 bs
      let c1 := { c with clientDataSize := sz, doublebuf := some sz }
      let (ok, w2) := netWrite w1
      if ok then HSOut.next 3 { c1 with noData := 0 } w2
      else HSOut.fail { c1 with failed := true } w2
    else if bs.length > 0 then HSOut.fail { c with failed := true } w1
    else HSOut.next 2 { c with noData := c.noData + 1 } w1
  | 3, c, w =>
    let (bs, w1) := netRead 4 w
    if bs.length = 4 then
      let nameSize : Int := toSigned32 (decodeLE4 bs)
      if nameSize > 1024 then HSOut.fail { c with failed := true } w1
      else if nameSize < 0 then
        -- char namebuf[1+nameSize] with 1+nameSize ≤ 0: undefined
        -- behaviour; nothing past this point is defined by the source.
        HSOut.undef c w1
      else
        let req : Nat := (nameSize % (2 ^ 64 : Int)).toNat
        let (nb, w2) := netRead req w1
        if (nb.length : Int) ≠ nameSize then HSOut.fail { c with failed := true } w2
        else
          -- clientConnectionName.assign(namebuf) has C-string semantics:
          -- the stored name stops at the first zero byte.
          let c1 := { c with clientConnectionName := nb.takeWhile (fun x => x ≠ 0) }
          let (ok, w3) := netWrite w2
          if ok then
            -- dataCache is the null dummy in this build, so a fresh
            -- empty deque is always allocated here.
            HSOut.next 4 { c1 with data := some [], noData := 0 } w3
          else HSOut.fail { c1 with failed := true } w3
    else if bs.length > 0 then HSOut.fail { c with failed := true } w1
    else HSOut.next 3 { c with noData := c.noData + 1 } w1
  | 4, c, w =>
    -- Stage CS_HS_DONE inside the loop body only logs; the loop guard
    -- stops before this branch can run, and hsLoop likewise never calls
    -- hsStep at stage 4.
    HSOut.next 4 c w
  | _ + 5, c, w =>
    -- Invalid handshake stage: the source logs, sets failed and returns -1.
    HSOut.fail { c with failed := true } w

/-- The while loop of doHandshake: runs hsStep while handshakeStage is not
CS_HS_DONE and noData < NO_DATA_MAX_COUNT, then performs the post-loop
check (noData at the ceiling means failure, otherwise the connection is
established).  Result code -2 is the fuel-exhaustion sentinel,
unreachable for the fuel doHandshake supplies; result code -3 is the
undefined-behaviour sentinel propagated from HSOut.undef. -/
def hsLoop : Nat → Nat → Conn → Wire → Int × Conn × Wire
  | 0, _, c, w => (-2, c, w)
  | fuel + 1, stage, c, w =>
    if stage ≠ 4 ∧ c.noData < NO_DATA_MAX_COUNT then
      match hsStep stage c w with
      | HSOut.fail c1 w1 => (-1, c1, w1)
      | HSOut.next s1 c1 w1 => hsLoop fuel s1 c1 w1
      | HSOut.undef c1 w1 => (-3, c1, w1)
    else
      if c.noData ≥ NO_DATA_MAX_COUNT then (-1, { c with failed := true }, w)
      else (0, { c with established := true }, w)

/-- SpineMLConnection::doHandshake.  Starts at stage CS_HS_GETTINGTARGET
with noData reset to 0; returns 0 on success and -1 on failure, together
with the updated connection and wire. -/
def doHandshake (c : Conn) (w : Wire) : Int × Conn × Wire :=
  hsLoop 600 0 { c with noData := 0 } w

/-! Steady-state input/output.  Return-code convention of the source
(doc comments on doReadFromClient / doWriteToClient): 0 = success
(continue), -1 = failure (the caller doInputOutput then sets failed and
finished), 1 = the connection completed (the caller sets finished only). -/

/-- One read call on the data path: either a negative return with an
errno, or the delivery of b bytes; vals lists the complete 8-byte doubles
those bytes contain, and is consulted by the model exactly where the
source consults doublebuf, namely when b equals the full block size
clientDataSize * 8 (in which case vals has clientDataSize elements). -/
inductive DRead where
  | derr (e : Nat)
  | ddata (b : Nat) (vals : List Int)
  deriving DecidableEq

/-- One read call for the one-byte acknowledgement on the write path:
a byte was delivered, or zero bytes were delivered (with the current
errno value), or the read call returned negative with an errno. -/
inductive ARead where
  | got (v : Nat)
  | nodata (e : Nat)
  | rerr (e : Nat)
  deriving DecidableEq

/-- The RESP_RECVD acknowledgement write at the end of doReadFromClient:
Option.none models a successful one-byte write, some e a failed write
with errno e (only ECONNRESET is forgiven, as a disconnect). -/
def ackWrite (c : Conn) (wr : Option Nat) : Int × Conn :=
  match wr with
  | Option.none => (0, c)
  | some e => if e = ECONNRESET then (1, c) else (-1, c)

/-- SpineMLConnection::doReadFromClient, one tick.  rd is the outcome of
the single read call of sizeof(double) * clientDataSize bytes; wr is the
outcome of the RESP_RECVD write when that write is reached.  Note the
branch ladder of the source: b < 0 is fatal; b equal to the full block
appends all values and resets noData; b = 0 stalls (or finishes at the
ceiling); any other byte count falls through to the acknowledgement write
with nothing appended.  The -2 result marks the null dereference the
source would commit if data were still null here. -/
def doReadFromClient (c : Conn) (rd : DRead) (wr : Option Nat) : Int × Conn :=
  match rd with
  | DRead.derr _ => (-1, c)
  | DRead.ddata b vals =>
    if b = 8 * c.clientDataSize then
      match c.data with
      | Option.none => (-2, c)
      | some buf => ackWrite { c with data := some (buf ++ vals), noData := 0 } wr
    else if b = 0 ∧ c.noData < NO_DATA_MAX_COUNT then
      (0, { c with noData := c.noData + 1 })
    else if b = 0 ∧ c.noData = NO_DATA_MAX_COUNT then (1, c)
    else ackWrite c wr

/-- The writing half of doWriteToClient (everything after the
acknowledgement-pending block): drain clientDataSize values from the
front of the deque into doublebuf and write them as one block, or stall
when the deque is short.  wr is the return value of the block write call;
the source compares it against clientDataSize * sizeof(double).  The
third component reports the batch of values handed to write (Option.none
when no write call was made).  The -2 result marks the null dereference
the source would commit if data were still null here. -/
def writeData (c : Conn) (wr : Int) : Int × Conn × Option (List Int) :=
  match c.data with
  | Option.none => (-2, c, Option.none)
  | some buf =>
    if buf.length ≥ c.clientDataSize then
      let batch := buf.take c.clientDataSize
      let c1 := { c with data := some (buf.drop c.clientDataSize) }
      if wr ≠ (c.clientDataSize : Int) * 8 then (-1, c1, some batch)
      else (0, { c1 with unacknowledgedDataSent := true, noData := 0 }, some batch)
    else
      if c.noData ≥ NO_DATA_MAX_COUNT then (1, c, Option.none)
      else (0, { c with noData := c.noData + 1 }, Option.none)

/-- SpineMLConnection::doWriteToClient, one tick.  ar is the outcome of
the one-byte acknowledgement read (consulted only while
unacknowledgedDataSent is set); wr is the return value of the block write
call (consulted only if the writing half runs and the deque is long
enough). -/
def doWriteToClient (c : Conn) (ar : ARead) (wr : Int) : Int × Conn × Option (List Int) :=
  if c.unacknowledgedDataSent then
    match ar with
    | ARead.got v =>
      if v ≠ RESP_RECVD then (-1, c, Option.none)
      else writeData { c with unacknowledgedDataSent := false, noData := 0 } wr
    | ARead.nodata e =>
      if c.noData < NO_DATA_MAX_COUNT then
        (0, { c with noData := c.noData + 1 }, Option.none)
      else if c.noData = NO_DATA_MAX_COUNT then
        if e = 0 then (1, c, Option.none) else (-1, c, Option.none)
      else
        if e = ECONNRESET then (1, c, Option.none) else (-1, c, Option.none)
    | ARead.rerr e =>
      if e = ECONNRESET then (1, c, Option.none) else (-1, c, Option.none)
  else writeData c wr

/-! Buffer accessors for the computation thread. -/

/-- Result of SpineMLConnection::popFront.  nullDeref marks the null
dereference committed when data was never attached; outOfRange models the
std::out_of_range exception thrown by data->at(0) on an empty deque — the
exception propagates before pop_front runs, so the connection state is
returned unchanged; ok returns the popped front value and the updated
connection. -/
inductive PopRes where
  | nullDeref
  | outOfRange (c : Conn)
  | ok (v : Int) (c : Conn)
  deriving DecidableEq

/-- SpineMLConnection::popFront: rtn = data->at(0); data->pop_front(). -/
def popFront (c : Conn) : PopRes :=
  match c.data with
  | Option.none => PopRes.nullDeref
  | some [] => PopRes.outOfRange c
  | some (v :: rest) => PopRes.ok v { c with data := some rest }

/-- SpineMLConnection::getDataSize: data->size(); Option.none marks the
null dereference committed when data was never attached. -/
def getDataSize (c : Conn) : Option Nat :=
  match c.data with
  | Option.none => Option.none
  | some l => some l.length

/-- SpineMLConnection::addNum: refuses silently unless the connection is
established and not failed, then pushes one value to the back. -/
def addNum (c : Conn) (v : Int) : Conn :=
  if !c.established || c.failed then c
  else { c with data := c.data.map (fun l => l ++ [v]) }

/-- SpineMLConnection::addData: refuses silently unless the connection is
established and not failed, then pushes dataSize values to the back in
array order. -/
def addData (c : Conn) (vals : List Int) : Conn :=
  if !c.established || c.failed then c
  else { c with data := c.data.map (fun l => l ++ vals) }

/-- k successive calls of popFront, collecting the popped values in
order; Option.none if any call fails to return a value. -/
def popN : Nat → Conn → Option (List Int × Conn)
  | 0, c => some ([], c)
  | k + 1, c =>
    match popFront c with
    | PopRes.ok v c1 => (popN k c1).map (fun p => (v :: p.1, p.2))
    | _ => Option.none

/-! Helper lemmas for evaluating the handshake symbolically. -/

/-- With the delivery schedule exhausted, a read call asking for exactly
the length of the first chunk of the stream delivers that chunk. -/
theorem netRead_defaultFull (n : Nat) (pre post : List Nat) (ws : List Bool)
    (h : pre.length = n) :
    netRead n ⟨pre ++ post, [], ws⟩ = (pre, ⟨post, [], ws⟩) := by
  subst h
  simp [netRead, Nat.min_eq_left (Nat.le_add_right _ _), List.take_left, List.drop_left]

theorem headD_eq_true_of_all {ws : List Bool} (h : ∀ x ∈ ws, x = true) :
    ws.headD true = true := by
  cases ws with
  | nil => rfl
  | cons a l => exact h a (List.mem_cons_self a l)

theorem all_true_tail {ws : List Bool} (h : ∀ x ∈ ws, x = true) :
    ∀ x ∈ ws.tail, x = true := by
  cases ws with
  | nil => simp
  | cons a l => exact fun x hx => h x (List.mem_cons_of_mem a hx)

theorem le4_length (n : Nat) : (le4 n).length = 4 := by
  simp [le4]

theorem decodeLE4_le4 {n : Nat} (h : n < 2 ^ 32) : decodeLE4 (le4 n) = n := by
  simp only [le4, decodeLE4]
  omega

theorem toSigned32_small {u : Nat} (h : u < 2 ^ 31) : toSigned32 u = (u : Int) := by
  simp only [toSigned32, if_pos h]

/-- A one-byte acknowledgement write whose schedule head says success. -/
theorem netWrite_true (st sc : List Nat) (ws : List Bool) (hw : ws.headD true = true) :
    netWrite ⟨st, sc, ws⟩ = (true, ⟨st, sc, ws.tail⟩) := by
  simp only [netWrite]
  rw [hw]

/-- Stage GETTINGTARGET with a valid direction byte at the head of the
stream and a successful hello write. -/
theorem hsStep0_ok (c : Conn) (d : Nat) (post : List Nat) (ws : List Bool)
    (hd : d = AM_SOURCE ∨ d = AM_TARGET) (hw : ws.headD true = true) :
    hsStep 0 c ⟨d :: post, [], ws⟩ =
      HSOut.next 1 { c with clientDataDirection := d, noData := 0 } ⟨post, [], ws.tail⟩ := by
  have hr : netRead 1 ⟨d :: post, [], ws⟩ = ([d], ⟨post, [], ws⟩) :=
    netRead_defaultFull 1 [d] post ws rfl
  have hnw := netWrite_true post [] ws hw
  rcases hd with rfl | rfl <;>
    simp [hsStep, hr, hnw]

/-- Stage GETTINGDATATYPE with the analog-numbers byte at the head of the
stream and a successful acknowledgement write. -/
theorem hsStep1_ok (c : Conn) (post : List Nat) (ws : List Bool)
    (hw : ws.headD true = true) :
    hsStep 1 c ⟨RESP_DATA_NUMS :: post, [], ws⟩ =
      HSOut.next 2 { c with clientDataType := RESP_DATA_NUMS, noData := 0 }
        ⟨post, [], ws.tail⟩ := by
  have hr : netRead 1 ⟨RESP_DATA_NUMS :: post, [], ws⟩ = ([RESP_DATA_NUMS], ⟨post, [], ws⟩) :=
    netRead_defaultFull 1 [RESP_DATA_NUMS] post ws rfl
  have hnw := netWrite_true post [] ws hw
  simp [hsStep, hr, hnw]

/-- Stage GETTINGDATASIZE with a full 4-byte size field at the head of
the stream and a successful acknowledgement write. -/
theorem hsStep2_ok (c : Conn) (ds : Nat) (post : List Nat) (ws : List Bool)
    (hds : ds < 2 ^ 32) (hw : ws.headD true = true) :
    hsStep 2 c ⟨le4 ds ++ post, [], ws⟩ =
      HSOut.next 3 { c with clientDataSize := ds, doublebuf := some ds, noData := 0 }
        ⟨post, [], ws.tail⟩ := by
  have hr : netRead 4 ⟨le4 ds ++ post, [], ws⟩ = (le4 ds, ⟨post, [], ws⟩) :=
    netRead_defaultFull 4 (le4 ds) post ws (le4_length ds)
  have hnw := netWrite_true post [] ws hw
  simp [hsStep, hr, hnw, le4_length, decodeLE4_le4 hds]

/-- Stage GETTINGNAME with a full 4-byte length field followed by exactly
that many name bytes, the length within the sanity bound, and a
successful acknowledgement write. -/
theorem hsStep3_ok (c : Conn) (nl : Nat) (name post : List Nat) (ws : List Bool)
    (hnl : name.length = nl) (hle : nl ≤ 1024) (hw : ws.headD true = true) :
    hsStep 3 c ⟨le4 nl ++ (name ++ post), [], ws⟩ =
      HSOut.next 4 { c with clientConnectionName := name.takeWhile (fun x => x ≠ 0),
                            data := some [], noData := 0 } ⟨post, [], ws.tail⟩ := by
  have hr : netRead 4 ⟨le4 nl ++ (name ++ post), [], ws⟩ = (le4 nl, ⟨name ++ post, [], ws⟩) :=
    netRead_defaultFull 4 (le4 nl) (name ++ post) ws (le4_length nl)
  have hr2 : netRead nl ⟨name ++ post, [], ws⟩ = (name, ⟨post, [], ws⟩) :=
    netRead_defaultFull nl name post ws hnl
  have hnw := netWrite_true post [] ws hw
  have hu : nl < 2 ^ 32 := by omega
  have hs : toSigned32 nl = (nl : Int) := toSigned32_small (by omega)
  have hgt : ¬((nl : Int) > 1024) := by exact_mod_cast Nat.not_lt.mpr hle
  have hng : ¬((nl : Int) < 0) := by omega
  have hreq : (((nl : Nat) : Int) % (18446744073709551616 : Int)).toNat = nl := by omega
  have hne : ¬((name.length : Int) ≠ (nl : Int)) := by
    simp [hnl]
  simp [hsStep, hr, le4_length, decodeLE4_le4 hu, hs, hgt, hng, hreq, hr2, hne, hnw, hnl]

/-- The loop takes one hsStep and continues when the stage is not DONE
and the stall counter is below the ceiling. -/
theorem hsLoop_next (f s : Nat) (c : Conn) (w : Wire) (s1 : Nat) (c1 : Conn) (w1 : Wire)
    (hs : s ≠ 4) (hn : c.noData < NO_DATA_MAX_COUNT)
    (h : hsStep s c w = HSOut.next s1 c1 w1) :
    hsLoop (f + 1) s c w = hsLoop f s1 c1 w1 := by
  simp [hsLoop, hs, hn, h]

/-- The loop returns -1 when the body hits a fatal branch. -/
theorem hsLoop_failStep (f s : Nat) (c : Conn) (w : Wire) (c1 : Conn) (w1 : Wire)
    (hs : s ≠ 4) (hn : c.noData < NO_DATA_MAX_COUNT)
    (h : hsStep s c w = HSOut.fail c1 w1) :
    hsLoop (f + 1) s c w = (-1, c1, w1) := by
  simp [hsLoop, hs, hn, h]

/-- Reaching stage DONE with the stall counter below the ceiling
establishes the connection. -/
theorem hsLoop_done (f : Nat) (c : Conn) (w : Wire)
    (hn : c.noData < NO_DATA_MAX_COUNT) :
    hsLoop (f + 1) 4 c w = (0, { c with established := true }, w) := by
  have hn2 : ¬c.noData ≥ NO_DATA_MAX_COUNT := by
    omega
  simp [hsLoop, hn2]

/-- Claim C1: for every handshake byte sequence that is valid at all four
stages — first byte a SOURCE or TARGET sentinel, second byte the
analog-numbers sentinel, a 4-byte little-endian data size in the unsigned
32-bit range, a 4-byte little-endian name length of at most 1024 followed
by exactly that many name bytes — and assuming every one-byte
acknowledgement write succeeds, doHandshake returns 0, sets established,
records the negotiated direction, type, size and connection name (the
source stores the name with C-string semantics, so it is the payload up
to the first zero byte), and allocates the scratch buffer doublebuf with
exactly clientDataSize slots, together with a freshly allocated empty
data deque. -/
theorem c1_handshake_success (d t ds nl : Nat) (name rest : List Nat) (ws : List Bool)
    (hd : d = AM_SOURCE ∨ d = AM_TARGET)
    (ht : t = RESP_DATA_NUMS)
    (hds1 : 1 ≤ ds) (hds2 : ds < 2 ^ 32)
    (hnl : name.length = nl) (hle : nl ≤ 1024)
    (hws : ∀ x ∈ ws, x = true) :
    doHandshake connInit ⟨[d, t] ++ le4 ds ++ le4 nl ++ name ++ rest, [], ws⟩ =
      (0,
       { established := true
         failed := false
         finished := false
         unacknowledgedDataSent := false
         noData := 0
         clientConnectionName := name.takeWhile (fun x => x ≠ 0)
         clientDataDirection := d
         clientDataType := RESP_DATA_NUMS
         clientDataSize := ds
         data := some []
         doublebuf := some ds },
       ⟨rest, [], ws.tail.tail.tail.tail⟩) := by
  subst ht
  have hws1 := all_true_tail hws
  have hws2 := all_true_tail hws1
  have hws3 := all_true_tail hws2
  have e0 := hsStep0_ok connInit d
    (RESP_DATA_NUMS :: (le4 ds ++ (le4 nl ++ (name ++ rest)))) ws hd
    (headD_eq_true_of_all hws)
  have e1 := hsStep1_ok { connInit with clientDataDirection := d, noData := 0 }
    (le4 ds ++ (le4 nl ++ (name ++ rest))) ws.tail (headD_eq_true_of_all hws1)
  have e2 := hsStep2_ok
    { connInit with clientDataDirection := d, clientDataType := RESP_DATA_NUMS, noData := 0 }
    ds (le4 nl ++ (name ++ rest)) ws.tail.tail hds2 (headD_eq_true_of_all hws2)
  have e3 := hsStep3_ok
    { connInit with clientDataDirection := d, clientDataType := RESP_DATA_NUMS,
                    clientDataSize := ds, doublebuf := some ds, noData := 0 }
    nl name rest ws.tail.tail.tail hnl hle (headD_eq_true_of_all hws3)
  have L0 : doHandshake connInit ⟨[d, RESP_DATA_NUMS] ++ le4 ds ++ le4 nl ++ name ++ rest, [], ws⟩
      = hsLoop 599 1 { connInit with clientDataDirection := d, noData := 0 }
          ⟨RESP_DATA_NUMS :: (le4 ds ++ (le4 nl ++ (name ++ rest))), [], ws.tail⟩ :=
    hsLoop_next 599 0 _ _ _ _ _ (by decide) (by decide) e0
  have L1 : hsLoop 599 1 { connInit with clientDataDirection := d, noData := 0 }
          ⟨RESP_DATA_NUMS :: (le4 ds ++ (le4 nl ++ (name ++ rest))), [], ws.tail⟩
      = hsLoop 598 2
          { connInit with clientDataDirection := d, clientDataType := RESP_DATA_NUMS, noData := 0 }
          ⟨le4 ds ++ (le4 nl ++ (name ++ rest)), [], ws.tail.tail⟩ :=
    hsLoop_next 598 1 _ _ _ _ _ (by decide) (by simp [NO_DATA_MAX_COUNT]) e1
  have L2 : hsLoop 598 2
          { connInit with clientDataDirection := d, clientDataType := RESP_DATA_NUMS, noData := 0 }
          ⟨le4 ds ++ (le4 nl ++ (name ++ rest)), [], ws.tail.tail⟩
      = hsLoop 597 3
          { connInit with clientDataDirection := d, clientDataType := RESP_DATA_NUMS,
                          clientDataSize := ds, doublebuf := some ds, noData := 0 }
          ⟨le4 nl ++ (name ++ rest), [], ws.tail.tail.tail⟩ :=
    hsLoop_next 597 2 _ _ _ _ _ (by decide) (by simp [NO_DATA_MAX_COUNT]) e2
  have L3 : hsLoop 597 3
          { connInit with clientDataDirection := d, clientDataType := RESP_DATA_NUMS,
                          clientDataSize := ds, doublebuf := some ds, noData := 0 }
          ⟨le4 nl ++ (name ++ rest), [], ws.tail.tail.tail⟩
      = hsLoop 596 4
          { connInit with clientDataDirection := d, clientDataType := RESP_DATA_NUMS,
                          clientDataSize := ds, doublebuf := some ds,
                          clientConnectionName := name.takeWhile (fun x => x ≠ 0),
                          data := some [], noData := 0 }
          ⟨rest, [], ws.tail.tail.tail.tail⟩ :=
    hsLoop_next 596 3 _ _ _ _ _ (by decide) (by simp [NO_DATA_MAX_COUNT]) e3
  have L4 : hsLoop 596 4
          { connInit with clientDataDirection := d, clientDataType := RESP_DATA_NUMS,
                          clientDataSize := ds, doublebuf := some ds,
                          clientConnectionName := name.takeWhile (fun x => x ≠ 0),
                          data := some [], noData := 0 }
          ⟨rest, [], ws.tail.tail.tail.tail⟩
      = (0,
         { connInit with clientDataDirection := d, clientDataType := RESP_DATA_NUMS,
                         clientDataSize := ds, doublebuf := some ds,
                         clientConnectionName := name.takeWhile (fun x => x ≠ 0),
                         data := some [], noData := 0, established := true },
         ⟨rest, [], ws.tail.tail.tail.tail⟩) :=
    hsLoop_done 595 _ _ (by simp [NO_DATA_MAX_COUNT])
  exact L0.trans (L1.trans (L2.trans (L3.trans L4)))

/-- Failure outcome of a handshake run from a fresh connection: the
source returns -1, records failed, and never reaches the line that sets
established. -/
def hsFails (w : Wire) : Prop :=
  (doHandshake connInit w).1 = -1 ∧ (doHandshake connInit w).2.1.failed = true ∧
    (doHandshake connInit w).2.1.established = false

/-- Stage GETTINGTARGET with a byte that is neither sentinel: fatal. -/
theorem hsStep0_bad (c : Conn) (d : Nat) (post : List Nat) (ws : List Bool)
    (hd : ¬(d = AM_SOURCE ∨ d = AM_TARGET)) :
    hsStep 0 c ⟨d :: post, [], ws⟩ =
      HSOut.fail { c with clientDataDirection := NOT_SET, failed := true } ⟨post, [], ws⟩ := by
  have hr : netRead 1 ⟨d :: post, [], ws⟩ = ([d], ⟨post, [], ws⟩) :=
    netRead_defaultFull 1 [d] post ws rfl
  simp [hsStep, hr, hd]

/-- Stage GETTINGDATATYPE with a byte other than the analog-numbers
sentinel (including the event and impulse sentinels): fatal. -/
theorem hsStep1_bad (c : Conn) (t : Nat) (post : List Nat) (ws : List Bool)
    (ht : t ≠ RESP_DATA_NUMS) :
    hsStep 1 c ⟨t :: post, [], ws⟩ =
      HSOut.fail { c with failed := true } ⟨post, [], ws⟩ := by
  have hr : netRead 1 ⟨t :: post, [], ws⟩ = ([t], ⟨post, [], ws⟩) :=
    netRead_defaultFull 1 [t] post ws rfl
  simp [hsStep, hr, ht]

/-- Stage GETTINGDATASIZE when the read call delivers a nonzero number
of bytes smaller than the 4 expected: fatal (the source never retries a
nonzero short read). -/
theorem hsStep2_short (c : Conn) (post : List Nat) (ws : List Bool)
    (h1 : 0 < post.length) (h2 : post.length < 4) :
    hsStep 2 c ⟨post, [], ws⟩ =
      HSOut.fail { c with failed := true } ⟨[], [], ws⟩ := by
  have hr : netRead 4 ⟨post, [], ws⟩ = (post, ⟨[], [], ws⟩) := by
    simp [netRead, Nat.min_eq_right (Nat.le_of_lt h2), List.take_length, List.drop_length]
  have h4 : post.length ≠ 4 := by omega
  simp [hsStep, hr, h4, h1]

/-- Stage GETTINGNAME when the 4-byte length read delivers a nonzero
number of bytes smaller than 4: fatal. -/
theorem hsStep3_short (c : Conn) (post : List Nat) (ws : List Bool)
    (h1 : 0 < post.length) (h2 : post.length < 4) :
    hsStep 3 c ⟨post, [], ws⟩ =
      HSOut.fail { c with failed := true } ⟨[], [], ws⟩ := by
  have hr : netRead 4 ⟨post, [], ws⟩ = (post, ⟨[], [], ws⟩) := by
    simp [netRead, Nat.min_eq_right (Nat.le_of_lt h2), List.take_length, List.drop_length]
  have h4 : post.length ≠ 4 := by omega
  simp [hsStep, hr, h4, h1]

/-- Stage GETTINGNAME with a name length above 1024 whose signed 32-bit
value is still positive (unsigned value below 2^31): the sanity check
fires and the stage is fatal. -/
theorem hsStep3_longname (c : Conn) (u : Nat) (post : List Nat) (ws : List Bool)
    (h1 : 1024 < u) (h2 : u < 2 ^ 31) :
    hsStep 3 c ⟨le4 u ++ post, [], ws⟩ =
      HSOut.fail { c with failed := true } ⟨post, [], ws⟩ := by
  have hr : netRead 4 ⟨le4 u ++ post, [], ws⟩ = (le4 u, ⟨post, [], ws⟩) :=
    netRead_defaultFull 4 (le4 u) post ws (le4_length u)
  have hdec : decodeLE4 (le4 u) = u := decodeLE4_le4 (by omega)
  have hs : toSigned32 u = (u : Int) := toSigned32_small h2
  have hgt : ((u : Nat) : Int) > 1024 := by exact_mod_cast h1
  simp [hsStep, hr, le4_length, hdec, hs, hgt]

/-- Stage GETTINGNAME with a name length whose unsigned 32-bit value is
at least 2^31: the signed int nameSize wraps negative, the sanity check
nameSize > 1024 passes, and the source reaches the negative-extent
namebuf declaration — undefined behaviour, the undef sentinel. -/
theorem hsStep3_negative (c : Conn) (u : Nat) (post : List Nat) (ws : List Bool)
    (h1 : 2 ^ 31 ≤ u) (h2 : u < 2 ^ 32) :
    hsStep 3 c ⟨le4 u ++ post, [], ws⟩ = HSOut.undef c ⟨post, [], ws⟩ := by
  have hr : netRead 4 ⟨le4 u ++ post, [], ws⟩ = (le4 u, ⟨post, [], ws⟩) :=
    netRead_defaultFull 4 (le4 u) post ws (le4_length u)
  have hcase : ¬u < 2 ^ 31 := by omega
  have hs : toSigned32 u = (u : Int) - 2 ^ 32 := by
    unfold toSigned32
    rw [if_neg hcase]
  have hgt : ¬(toSigned32 u > 1024) := by omega
  have hneg : toSigned32 u < 0 := by
    rw [hs]
    omega
  simp [hsStep, hr, le4_length, decodeLE4_le4 h2, hgt, hneg]

/-- Stage GETTINGNAME when the client promises nl name bytes but fewer
are delivered: the mismatched length read is fatal. -/
theorem hsStep3_nameshort (c : Conn) (nl : Nat) (name : List Nat) (ws : List Bool)
    (hle : nl ≤ 1024) (hk : name.length < nl) :
    hsStep 3 c ⟨le4 nl ++ name, [], ws⟩ =
      HSOut.fail { c with failed := true } ⟨[], [], ws⟩ := by
  have hr : netRead 4 ⟨le4 nl ++ name, [], ws⟩ = (le4 nl, ⟨name, [], ws⟩) :=
    netRead_defaultFull 4 (le4 nl) name ws (le4_length nl)
  have hu : nl < 2 ^ 32 := by omega
  have hs : toSigned32 nl = (nl : Int) := toSigned32_small (by omega)
  have hgt : ¬((nl : Int) > 1024) := by exact_mod_cast Nat.not_lt.mpr hle
  have hng : ¬((nl : Int) < 0) := by omega
  have hreq : (((nl : Nat) : Int) % (18446744073709551616 : Int)).toNat = nl := by omega
  have hr2 : netRead nl ⟨name, [], ws⟩ = (name, ⟨[], [], ws⟩) := by
    simp [netRead, Nat.min_eq_right (Nat.le_of_lt hk), List.take_length, List.drop_length]
  have hne : ((name.length : Nat) : Int) ≠ (nl : Int) := by
    omega
  simp [hsStep, hr, le4_length, decodeLE4_le4 hu, hs, hgt, hng, hreq, hr2, hne]

/-- Progress through stage GETTINGTARGET on a valid direction byte. -/
theorem hsAfter0 (d : Nat) (post : List Nat) (ws : List Bool)
    (hd : d = AM_SOURCE ∨ d = AM_TARGET) (hws : ∀ x ∈ ws, x = true) :
    doHandshake connInit ⟨d :: post, [], ws⟩ =
      hsLoop 599 1 { connInit with clientDataDirection := d, noData := 0 }
        ⟨post, [], ws.tail⟩ :=
  hsLoop_next 599 0 _ _ _ _ _ (by decide) (by decide)
    (hsStep0_ok connInit d post ws hd (headD_eq_true_of_all hws))

/-- Progress through stages GETTINGTARGET and GETTINGDATATYPE on valid
bytes. -/
theorem hsAfter1 (d : Nat) (post : List Nat) (ws : List Bool)
    (hd : d = AM_SOURCE ∨ d = AM_TARGET) (hws : ∀ x ∈ ws, x = true) :
    doHandshake connInit ⟨d :: RESP_DATA_NUMS :: post, [], ws⟩ =
      hsLoop 598 2
        { connInit with clientDataDirection := d, clientDataType := RESP_DATA_NUMS, noData := 0 }
        ⟨post, [], ws.tail.tail⟩ :=
  (hsAfter0 d (RESP_DATA_NUMS :: post) ws hd hws).trans
    (hsLoop_next 598 1 _ _ _ _ _ (by decide) (by simp [NO_DATA_MAX_COUNT])
      (hsStep1_ok { connInit with clientDataDirection := d, noData := 0 } post ws.tail
        (headD_eq_true_of_all (all_true_tail hws))))

/-- Progress through the first three stages on valid bytes and a full
4-byte size field. -/
theorem hsAfter2 (d ds : Nat) (post : List Nat) (ws : List Bool)
    (hd : d = AM_SOURCE ∨ d = AM_TARGET) (hds : ds < 2 ^ 32)
    (hws : ∀ x ∈ ws, x = true) :
    doHandshake connInit ⟨d :: RESP_DATA_NUMS :: (le4 ds ++ post), [], ws⟩ =
      hsLoop 597 3
        { connInit with clientDataDirection := d, clientDataType := RESP_DATA_NUMS,
                        clientDataSize := ds, doublebuf := some ds, noData := 0 }
        ⟨post, [], ws.tail.tail.tail⟩ :=
  (hsAfter1 d (le4 ds ++ post) ws hd hws).trans
    (hsLoop_next 597 2 _ _ _ _ _ (by decide) (by simp [NO_DATA_MAX_COUNT])
      (hsStep2_ok
        { connInit with clientDataDirection := d, clientDataType := RESP_DATA_NUMS, noData := 0 }
        ds post ws.tail.tail hds (headD_eq_true_of_all (all_true_tail (all_true_tail hws)))))

/-- Claim C2 as amended: every handshake byte sequence that deviates at
some stage makes doHandshake return -1 with failed set and established
still false — with the name-length deviation restricted to fields whose
value exceeds 1024 while staying below 2^31, i.e. whose signed 32-bit
reading trips the sanity check.  For fields of 2^31 and above the signed
int wraps negative, the sanity check passes and the source commits
undefined behaviour (negative-extent namebuf), so no clean failure can
be claimed there: see c2_counterexample.  The deviations covered, in the
order of the conjuncts: a first byte that is neither the SOURCE nor the
TARGET sentinel; a second byte that is not the analog-numbers sentinel
(including the event and impulse sentinels); a name-length field whose
value is in (1024, 2^31); a nonzero read delivering fewer than the
expected 4 bytes at the data-size stage; the same at the name-length
read; and a delivery of fewer name bytes than the announced name
length.  Acknowledgement writes are assumed to succeed (a failed write
is a different failure cause with the same -1 and failed outcome). -/
theorem c2_handshake_deviation :
    (∀ (d : Nat) (post : List Nat) (ws : List Bool),
       ¬(d = AM_SOURCE ∨ d = AM_TARGET) → (∀ x ∈ ws, x = true) →
       hsFails ⟨d :: post, [], ws⟩) ∧
    (∀ (d t : Nat) (post : List Nat) (ws : List Bool),
       (d = AM_SOURCE ∨ d = AM_TARGET) → t ≠ RESP_DATA_NUMS → (∀ x ∈ ws, x = true) →
       hsFails ⟨d :: t :: post, [], ws⟩) ∧
    (∀ (d ds u : Nat) (post : List Nat) (ws : List Bool),
       (d = AM_SOURCE ∨ d = AM_TARGET) → ds < 2 ^ 32 → 1024 < u → u < 2 ^ 31 →
       (∀ x ∈ ws, x = true) →
       hsFails ⟨[d, RESP_DATA_NUMS] ++ le4 ds ++ le4 u ++ post, [], ws⟩) ∧
    (∀ (d : Nat) (post : List Nat) (ws : List Bool),
       (d = AM_SOURCE ∨ d = AM_TARGET) → 0 < post.length → post.length < 4 →
       (∀ x ∈ ws, x = true) →
       hsFails ⟨[d, RESP_DATA_NUMS] ++ post, [], ws⟩) ∧
    (∀ (d ds : Nat) (post : List Nat) (ws : List Bool),
       (d = AM_SOURCE ∨ d = AM_TARGET) → ds < 2 ^ 32 → 0 < post.length → post.length < 4 →
       (∀ x ∈ ws, x = true) →
       hsFails ⟨[d, RESP_DATA_NUMS] ++ le4 ds ++ post, [], ws⟩) ∧
    (∀ (d ds nl : Nat) (name : List Nat) (ws : List Bool),
       (d = AM_SOURCE ∨ d = AM_TARGET) → ds < 2 ^ 32 → nl ≤ 1024 → name.length < nl →
       (∀ x ∈ ws, x = true) →
       hsFails ⟨[d, RESP_DATA_NUMS] ++ le4 ds ++ le4 nl ++ name, [], ws⟩) := by
  refine ⟨?_, ?_, ?_, ?_, ?_, ?_⟩
  · intro d post ws hd _
    have hEq : doHandshake connInit ⟨d :: post, [], ws⟩ =
        (-1, { connInit with clientDataDirection := NOT_SET, failed := true },
         ⟨post, [], ws⟩) :=
      hsLoop_failStep 599 0 _ _ _ _ (by decide) (by decide)
        (hsStep0_bad connInit d post ws hd)
    simp only [hsFails]
    rw [hEq]
    exact ⟨rfl, rfl, rfl⟩
  · intro d t post ws hd ht hws
    have hEq : doHandshake connInit ⟨d :: t :: post, [], ws⟩ =
        (-1, { connInit with clientDataDirection := d, noData := 0, failed := true },
         ⟨post, [], ws.tail⟩) :=
      (hsAfter0 d (t :: post) ws hd hws).trans
        (hsLoop_failStep 598 1 _ _ _ _ (by decide) (by simp [NO_DATA_MAX_COUNT])
          (hsStep1_bad { connInit with clientDataDirection := d, noData := 0 }
            t post ws.tail ht))
    simp only [hsFails]
    rw [hEq]
    exact ⟨rfl, rfl, rfl⟩
  · intro d ds u post ws hd hds h1 h2 hws
    have hEq : doHandshake connInit ⟨[d, RESP_DATA_NUMS] ++ le4 ds ++ le4 u ++ post, [], ws⟩ =
        (-1, { connInit with clientDataDirection := d, clientDataType := RESP_DATA_NUMS,
                             clientDataSize := ds, doublebuf := some ds, noData := 0,
                             failed := true }, ⟨post, [], ws.tail.tail.tail⟩) :=
      (hsAfter2 d ds (le4 u ++ post) ws hd hds hws).trans
        (hsLoop_failStep 596 3 _ _ _ _ (by decide) (by simp [NO_DATA_MAX_COUNT])
          (hsStep3_longname
            { connInit with clientDataDirection := d, clientDataType := RESP_DATA_NUMS,
                            clientDataSize := ds, doublebuf := some ds, noData := 0 }
            u post ws.tail.tail.tail h1 h2))
    simp only [hsFails]
    rw [hEq]
    exact ⟨rfl, rfl, rfl⟩
  · intro d post ws hd h1 h2 hws
    have hEq : doHandshake connInit ⟨[d, RESP_DATA_NUMS] ++ post, [], ws⟩ =
        (-1, { connInit with clientDataDirection := d, clientDataType := RESP_DATA_NUMS,
                             noData := 0, failed := true }, ⟨[], [], ws.tail.tail⟩) :=
      (hsAfter1 d post ws hd hws).trans
        (hsLoop_failStep 597 2 _ _ _ _ (by decide) (by simp [NO_DATA_MAX_COUNT])
          (hsStep2_short
            { connInit with clientDataDirection := d, clientDataType := RESP_DATA_NUMS,
                            noData := 0 } post ws.tail.tail h1 h2))
    simp only [hsFails]
    rw [hEq]
    exact ⟨rfl, rfl, rfl⟩
  · intro d ds post ws hd hds h1 h2 hws
    have hEq : doHandshake connInit ⟨[d, RESP_DATA_NUMS] ++ le4 ds ++ post, [], ws⟩ =
        (-1, { connInit with clientDataDirection := d, clientDataType := RESP_DATA_NUMS,
                             clientDataSize := ds, doublebuf := some ds, noData := 0,
                             failed := true }, ⟨[], [], ws.tail.tail.tail⟩) :=
      (hsAfter2 d ds post ws hd hds hws).trans
        (hsLoop_failStep 596 3 _ _ _ _ (by decide) (by simp [NO_DATA_MAX_COUNT])
          (hsStep3_short
            { connInit with clientDataDirection := d, clientDataType := RESP_DATA_NUMS,
                            clientDataSize := ds, doublebuf := some ds, noData := 0 }
            post ws.tail.tail.tail h1 h2))
    simp only [hsFails]
    rw [hEq]
    exact ⟨rfl, rfl, rfl⟩
  · intro d ds nl name ws hd hds hle hk hws
    have hEq : doHandshake connInit ⟨[d, RESP_DATA_NUMS] ++ le4 ds ++ le4 nl ++ name, [], ws⟩ =
        (-1, { connInit with clientDataDirection := d, clientDataType := RESP_DATA_NUMS,
                             clientDataSize := ds, doublebuf := some ds, noData := 0,
                             failed := true }, ⟨[], [], ws.tail.tail.tail⟩) :=
      (hsAfter2 d ds (le4 nl ++ name) ws hd hds hws).trans
        (hsLoop_failStep 596 3 _ _ _ _ (by decide) (by simp [NO_DATA_MAX_COUNT])
          (hsStep3_nameshort
            { connInit with clientDataDirection := d, clientDataType := RESP_DATA_NUMS,
                            clientDataSize := ds, doublebuf := some ds, noData := 0 }
            nl name ws.tail.tail.tail hle hk))
    simp only [hsFails]
    rw [hEq]
    exact ⟨rfl, rfl, rfl⟩

/-- Counterexample to claim C2 as originally stated.  The name-length
field 2^31 (bytes 00 00 00 80) has an unsigned 32-bit value exceeding
1024, so the claim requires doHandshake to return -1 with failed set.
Instead the signed int nameSize wraps to -2^31, the sanity check
nameSize > 1024 passes, and the source reaches
char namebuf[1+nameSize] with a negative extent — undefined behaviour,
the -3 sentinel of the model: the run does not return -1 and failed is
never set. -/
theorem c2_counterexample :
    (doHandshake connInit
        ⟨[45, 31] ++ le4 1 ++ le4 (2 ^ 31) ++ [7, 7, 7], [], []⟩).1 = -3 ∧
    (doHandshake connInit
        ⟨[45, 31] ++ le4 1 ++ le4 (2 ^ 31) ++ [7, 7, 7], [], []⟩).1 ≠ -1 ∧
    (doHandshake connInit
        ⟨[45, 31] ++ le4 1 ++ le4 (2 ^ 31) ++ [7, 7, 7], [], []⟩).2.1.failed = false := by
  decide

/-- Witness for C2, one concrete deviating input per conjunct (the
name-length case at 2000, inside the range where the sanity check is
sound). -/
theorem c2_witness :
    hsFails ⟨[47], [], []⟩ ∧
    hsFails ⟨[45, 32], [], []⟩ ∧
    hsFails ⟨[45, 31] ++ le4 1 ++ le4 2000 ++ [], [], []⟩ ∧
    hsFails ⟨[46, 31] ++ [9, 9], [], []⟩ ∧
    hsFails ⟨[46, 31] ++ le4 2 ++ [9, 9, 9], [], []⟩ ∧
    hsFails ⟨[46, 31] ++ le4 2 ++ le4 4 ++ [97, 98], [], []⟩ :=
  ⟨c2_handshake_deviation.1 47 [] [] (by decide) (by decide),
   c2_handshake_deviation.2.1 45 32 [] [] (Or.inl rfl) (by decide) (by decide),
   c2_handshake_deviation.2.2.1 45 1 2000 [] [] (Or.inl rfl) (by decide) (by decide)
     (by decide) (by decide),
   c2_handshake_deviation.2.2.2.1 46 [9, 9] [] (Or.inr rfl) (by decide) (by decide)
     (by decide),
   c2_handshake_deviation.2.2.2.2.1 46 2 [9, 9, 9] [] (Or.inr rfl) (by decide)
     (by decide) (by decide) (by decide),
   c2_handshake_deviation.2.2.2.2.2 46 2 4 [97, 98] [] (Or.inr rfl) (by decide)
     (by decide) (by decide) (by decide)⟩

/-- Witness for C1 at a concrete valid handshake: direction TARGET (46),
type analog numbers (31), data size 3, name of length 4 spelling test. -/
theorem c1_witness :
    doHandshake connInit
        ⟨[46, 31] ++ le4 3 ++ le4 4 ++ [116, 101, 115, 116] ++ [], [], []⟩ =
      (0,
       { established := true
         failed := false
         finished := false
         unacknowledgedDataSent := false
         noData := 0
         clientConnectionName := [116, 101, 115, 116].takeWhile (fun x => x ≠ 0)
         clientDataDirection := 46
         clientDataType := RESP_DATA_NUMS
         clientDataSize := 3
         data := some []
         doublebuf := some 3 },
       ⟨[], [], ([] : List Bool).tail.tail.tail.tail⟩) :=
  c1_handshake_success 46 31 3 4 [116, 101, 115, 116] [] []
    (Or.inr rfl) rfl (by decide) (by decide) rfl (by decide)
    (by decide)

end SpineML

namespace SpineML

/-- A connection as it stands after a successful handshake negotiating
direction SOURCE, analog numbers, data size 2 and name A, with two
values sitting in the buffer.  Used as the concrete state for the
steady-state evaluations. -/
def connEst : Conn :=
  { established := true
    failed := false
    finished := false
    unacknowledgedDataSent := false
    noData := 0
    clientConnectionName := [65]
    clientDataDirection := AM_SOURCE
    clientDataType := RESP_DATA_NUMS
    clientDataSize := 2
    data := some [10, 20]
    doublebuf := some 2 }

/-- connEst after a completed batch write, waiting for the
acknowledgement byte. -/
def connEstW : Conn :=
  { connEst with unacknowledgedDataSent := true }

/-- Claim C3 (code bug).  With clientDataSize = 2 the full block is 16
bytes; a read delivering 8 bytes is an incomplete block read.  The claim
(and the spec) call this fatal, but the branch ladder of
doReadFromClient has no case for 0 < b < clientDataSize * 8: control
falls through to the acknowledgement write, so the call acknowledges the
discarded bytes and returns 0 with the buffer unchanged.  The second
half of the claim does hold: nothing from the incomplete block is
appended. -/
theorem c3_incomplete_read_not_fatal :
    doReadFromClient connEst (DRead.ddata 8 [7]) Option.none = (0, connEst) := by
  decide

/-- One steady-state read tick that delivers zero bytes (successful
acknowledgement write supplied, though the stall branch never reaches
it). -/
def zeroReadTick (c : Conn) : Conn :=
  (doReadFromClient c (DRead.ddata 0 []) Option.none).2

/-- k consecutive zero-byte read ticks. -/
def stallTicksR : Nat → Conn → Conn
  | 0, c => c
  | k + 1, c => stallTicksR k (zeroReadTick c)

/-- One steady-state write tick whose acknowledgement read delivers zero
bytes with errno 0. -/
def zeroAckTick (c : Conn) : Conn :=
  (doWriteToClient c (ARead.nodata 0) 0).2.1

/-- k consecutive zero-byte acknowledgement-wait ticks. -/
def stallTicksW : Nat → Conn → Conn
  | 0, c => c
  | k + 1, c => stallTicksW k (zeroAckTick c)

/-- Counterexample to claim C4: on the steady-state read path the
ceiling does not behave as in the handshake.  After 99 consecutive
zero-byte reads, the 100th consecutive zero-byte read still returns 0
(continue) — it merely raises the stall counter to the ceiling — whereas
the claim says the 100th read terminates the stage with a finish. -/
theorem c4_counterexample :
    (doReadFromClient (stallTicksR 99 connEst) (DRead.ddata 0 []) Option.none).1 = 0 := by
  decide

/-- Claim C4 as amended.  In the handshake the loop guard noData < 100
is checked before each read, so 99 consecutive zero-byte reads still
allow progress and the 100th makes the handshake fail.  In the
steady-state read path and in the acknowledgement wait of the write path
the ceiling check is noData == 100 at the next tick, so 100 consecutive
zero-byte reads are tolerated (each returning 0) and the 101st returns
finish.  All three boundaries are evaluated here: the handshake at stage
GETTINGTARGET with 99 and with 100 stalled reads before a valid byte
sequence, and the two steady-state paths via 99, 100 and 101 consecutive
zero-byte ticks. -/
theorem c4_stall_boundaries :
    (doHandshake connInit
        ⟨[46, 31] ++ le4 2 ++ le4 1 ++ [65], List.replicate 99 0, []⟩).1 = 0 ∧
    (doHandshake connInit
        ⟨[46, 31] ++ le4 2 ++ le4 1 ++ [65], List.replicate 99 0, []⟩).2.1.established = true ∧
    (doHandshake connInit
        ⟨[46, 31] ++ le4 2 ++ le4 1 ++ [65], List.replicate 100 0, []⟩).1 = -1 ∧
    (doHandshake connInit
        ⟨[46, 31] ++ le4 2 ++ le4 1 ++ [65], List.replicate 100 0, []⟩).2.1.failed = true ∧
    (doReadFromClient (stallTicksR 99 connEst) (DRead.ddata 0 []) Option.none).1 = 0 ∧
    (stallTicksR 100 connEst).noData = 100 ∧
    (doReadFromClient (stallTicksR 100 connEst) (DRead.ddata 0 []) Option.none).1 = 1 ∧
    (doWriteToClient (stallTicksW 99 connEstW) (ARead.nodata 0) 0).1 = 0 ∧
    (stallTicksW 100 connEstW).noData = 100 ∧
    (doWriteToClient (stallTicksW 100 connEstW) (ARead.nodata 0) 0).1 = 1 := by
  decide

end SpineML

namespace SpineML

/-- Claim C5: write-path flow control keeps at most one batch in flight.
Conjuncts: while unacknowledgedDataSent is set, any tick whose
acknowledgement read does not deliver the RESP_RECVD byte writes no
batch and leaves the flag set; a tick that does read RESP_RECVD clears
the flag and only then runs the writing half; an acknowledgement byte
other than RESP_RECVD is fatal (returns -1) with no batch written; and a
completed batch write sets unacknowledgedDataSent. -/
theorem c5_flow_control (c : Conn) (ar : ARead) (wr : Int) :
    (c.unacknowledgedDataSent = true → ar ≠ ARead.got RESP_RECVD →
       (doWriteToClient c ar wr).2.2 = Option.none ∧
       (doWriteToClient c ar wr).2.1.unacknowledgedDataSent = true) ∧
    (c.unacknowledgedDataSent = true →
       doWriteToClient c (ARead.got RESP_RECVD) wr =
         writeData { c with unacknowledgedDataSent := false, noData := 0 } wr) ∧
    (c.unacknowledgedDataSent = true → ∀ v, v ≠ RESP_RECVD →
       doWriteToClient c (ARead.got v) wr = (-1, c, Option.none)) ∧
    (∀ buf, c.unacknowledgedDataSent = false → c.data = some buf →
       c.clientDataSize ≤ buf.length → wr = (c.clientDataSize : Int) * 8 →
       (doWriteToClient c ar wr).1 = 0 ∧
       (doWriteToClient c ar wr).2.1.unacknowledgedDataSent = true ∧
       (doWriteToClient c ar wr).2.2 = some (buf.take c.clientDataSize)) := by
  refine ⟨?_, ?_, ?_, ?_⟩
  · intro hu hne
    cases ar with
    | got v =>
      have hv : v ≠ RESP_RECVD := by
        intro h
        exact hne (by rw [h])
      simp [doWriteToClient, hu, hv]
    | nodata e =>
      simp only [doWriteToClient, hu, if_true]
      split_ifs <;> simp [hu]
    | rerr e =>
      simp only [doWriteToClient, hu, if_true]
      split_ifs <;> simp [hu]
  · intro hu
    simp [doWriteToClient, hu]
  · intro hu v hv
    simp [doWriteToClient, hu, hv]
  · intro buf hu hd hlen hwr
    have hge : buf.length ≥ c.clientDataSize := hlen
    simp [doWriteToClient, hu, writeData, hd, hge, hwr]

/-- Witness for C5 on connEstW (acknowledgement pending, buffer [10, 20],
data size 2) and connEst (no acknowledgement pending). -/
theorem c5_witness :
    ((doWriteToClient connEstW (ARead.nodata 0) 16).2.2 = Option.none ∧
     (doWriteToClient connEstW (ARead.nodata 0) 16).2.1.unacknowledgedDataSent = true) ∧
    (doWriteToClient connEstW (ARead.got RESP_RECVD) 16 =
      writeData { connEstW with unacknowledgedDataSent := false, noData := 0 } 16) ∧
    (doWriteToClient connEstW (ARead.got 43) 16 = (-1, connEstW, Option.none)) ∧
    ((doWriteToClient connEst (ARead.nodata 0) 16).1 = 0 ∧
     (doWriteToClient connEst (ARead.nodata 0) 16).2.1.unacknowledgedDataSent = true ∧
     (doWriteToClient connEst (ARead.nodata 0) 16).2.2 =
       some (([10, 20] : List Int).take connEst.clientDataSize)) :=
  ⟨(c5_flow_control connEstW (ARead.nodata 0) 16).1 (by decide) (by decide),
   (c5_flow_control connEstW (ARead.got RESP_RECVD) 16).2.1 (by decide),
   (c5_flow_control connEstW (ARead.got 43) 16).2.2.1 (by decide) 43 (by decide),
   (c5_flow_control connEst (ARead.nodata 0) 16).2.2.2 [10, 20] (by decide) (by decide)
     (by decide) (by decide)⟩

/-- Claim C6: a tick of doWriteToClient with no acknowledgement pending.
With at least clientDataSize buffered values and a write call
transferring the full clientDataSize * 8 bytes, exactly clientDataSize
values are drained from the front in order (the batch handed to write is
buf.take clientDataSize, of length clientDataSize, and the remaining
buffer is buf.drop clientDataSize), unacknowledgedDataSent is set and
the stall counter reset; a write returning anything other than the full
byte count is fatal; with fewer than clientDataSize buffered values
nothing is written and the stall counter is incremented, and a tick
entered at the ceiling in that state returns a normal finish. -/
theorem c6_write_tick (c : Conn) (ar : ARead) (wr : Int) (buf : List Int)
    (hu : c.unacknowledgedDataSent = false) (hd : c.data = some buf) :
    (c.clientDataSize ≤ buf.length → wr = (c.clientDataSize : Int) * 8 →
       doWriteToClient c ar wr =
         (0, { c with data := some (buf.drop c.clientDataSize),
                      unacknowledgedDataSent := true, noData := 0 },
          some (buf.take c.clientDataSize)) ∧
       (buf.take c.clientDataSize).length = c.clientDataSize) ∧
    (c.clientDataSize ≤ buf.length → wr ≠ (c.clientDataSize : Int) * 8 →
       doWriteToClient c ar wr =
         (-1, { c with data := some (buf.drop c.clientDataSize) },
          some (buf.take c.clientDataSize))) ∧
    (buf.length < c.clientDataSize → c.noData < NO_DATA_MAX_COUNT →
       doWriteToClient c ar wr = (0, { c with noData := c.noData + 1 }, Option.none)) ∧
    (buf.length < c.clientDataSize → NO_DATA_MAX_COUNT ≤ c.noData →
       doWriteToClient c ar wr = (1, c, Option.none)) := by
  refine ⟨?_, ?_, ?_, ?_⟩
  · intro hlen hwr
    have hge : buf.length ≥ c.clientDataSize := hlen
    constructor
    · simp [doWriteToClient, hu, writeData, hd, hge, hwr]
    · simp [List.length_take, Nat.min_eq_left hlen]
  · intro hlen hwr
    have hge : buf.length ≥ c.clientDataSize := hlen
    simp [doWriteToClient, hu, writeData, hd, hge, hwr]
  · intro hlen hn
    have hge : ¬buf.length ≥ c.clientDataSize := by omega
    have hn2 : ¬c.noData ≥ NO_DATA_MAX_COUNT := by omega
    simp [doWriteToClient, hu, writeData, hd, hge, hn2]
  · intro hlen hn
    have hge : ¬buf.length ≥ c.clientDataSize := by omega
    have hn2 : c.noData ≥ NO_DATA_MAX_COUNT := hn
    simp [doWriteToClient, hu, writeData, hd, hge, hn2]

/-- Witness for C6 on connEst (buffer [10, 20], data size 2): a full
write drains both values; and on a connection with a single buffered
value: a stalling tick and a finish at the ceiling. -/
theorem c6_witness :
    (doWriteToClient connEst (ARead.nodata 0) 16 =
       (0, { connEst with data := some (([10, 20] : List Int).drop connEst.clientDataSize),
                          unacknowledgedDataSent := true, noData := 0 },
        some (([10, 20] : List Int).take connEst.clientDataSize)) ∧
     (([10, 20] : List Int).take connEst.clientDataSize).length = connEst.clientDataSize) ∧
    (doWriteToClient connEst (ARead.nodata 0) 7 =
       (-1, { connEst with data := some (([10, 20] : List Int).drop connEst.clientDataSize) },
        some (([10, 20] : List Int).take connEst.clientDataSize))) ∧
    (doWriteToClient { connEst with data := some [9] } (ARead.nodata 0) 16 =
       (0, { { connEst with data := some [9] } with noData := connEst.noData + 1 },
        Option.none)) ∧
    (doWriteToClient { connEst with data := some [9], noData := 100 } (ARead.nodata 0) 16 =
       (1, { connEst with data := some [9], noData := 100 }, Option.none)) :=
  ⟨(c6_write_tick connEst (ARead.nodata 0) 16 [10, 20] (by decide) (by decide)).1
     (by decide) (by decide),
   (c6_write_tick connEst (ARead.nodata 0) 7 [10, 20] (by decide) (by decide)).2.1
     (by decide) (by decide),
   (c6_write_tick { connEst with data := some [9] } (ARead.nodata 0) 16 [9]
     (by decide) (by decide)).2.2.1 (by decide) (by decide),
   (c6_write_tick { connEst with data := some [9], noData := 100 } (ARead.nodata 0) 16 [9]
     (by decide) (by decide)).2.2.2 (by decide) (by decide)⟩

/-- Claim C7: a steady-state read tick that delivers the complete block
of clientDataSize * 8 bytes appends all clientDataSize values to the
back of the buffer in wire order and resets the stall counter; the
RESP_RECVD acknowledgement is then written, and a failure of that write
is fatal (-1) unless the errno is ECONNRESET, which yields a normal
finish (1). -/
theorem c7_read_full_block (c : Conn) (vals buf : List Int) (wr : Option Nat)
    (hd : c.data = some buf) (hv : vals.length = c.clientDataSize) :
    doReadFromClient c (DRead.ddata (8 * c.clientDataSize) vals) wr =
      ((match wr with
        | Option.none => 0
        | some e => if e = ECONNRESET then 1 else -1),
       { c with data := some (buf ++ vals), noData := 0 }) := by
  cases wr with
  | none => simp [doReadFromClient, hd, ackWrite]
  | some e => by_cases he : e = ECONNRESET <;> simp [doReadFromClient, hd, ackWrite, he]

/-- Witness for C7 on connEst (buffer [10, 20], data size 2) with a full
16-byte block carrying values [1, 2], under all three acknowledgement
outcomes. -/
theorem c7_witness :
    doReadFromClient connEst (DRead.ddata (8 * connEst.clientDataSize) [1, 2]) Option.none =
      (0, { connEst with data := some (([10, 20] : List Int) ++ [1, 2]), noData := 0 }) ∧
    doReadFromClient connEst (DRead.ddata (8 * connEst.clientDataSize) [1, 2]) (some 104) =
      (1, { connEst with data := some (([10, 20] : List Int) ++ [1, 2]), noData := 0 }) ∧
    doReadFromClient connEst (DRead.ddata (8 * connEst.clientDataSize) [1, 2]) (some 32) =
      (-1, { connEst with data := some (([10, 20] : List Int) ++ [1, 2]), noData := 0 }) :=
  ⟨c7_read_full_block connEst [1, 2] [10, 20] Option.none (by decide) (by decide),
   c7_read_full_block connEst [1, 2] [10, 20] (some 104) (by decide) (by decide),
   c7_read_full_block connEst [1, 2] [10, 20] (some 32) (by decide) (by decide)⟩

end SpineML

namespace SpineML

/-- Claim C8: on a connection whose buffer is allocated and empty,
popFront raises the out-of-range condition (data->at(0) throws before
pop_front runs, so the connection — in particular the empty buffer — is
unchanged, which the outOfRange constructor records by carrying the
connection as it stood); on a non-empty buffer popFront returns the
front value and removes exactly that one value. -/
theorem c8_popFront_spec :
    (∀ c : Conn, c.data = some [] → popFront c = PopRes.outOfRange c) ∧
    (∀ (c : Conn) (v : Int) (rest : List Int), c.data = some (v :: rest) →
       popFront c = PopRes.ok v { c with data := some rest }) := by
  constructor
  · intro c h
    simp [popFront, h]
  · intro c v rest h
    simp [popFront, h]

/-- Witness for C8: the empty and the non-empty case at concrete
connections. -/
theorem c8_witness :
    popFront { connEst with data := some [] } =
      PopRes.outOfRange { connEst with data := some [] } ∧
    popFront connEst = PopRes.ok 10 { connEst with data := some [20] } :=
  ⟨c8_popFront_spec.1 { connEst with data := some [] } (by decide),
   c8_popFront_spec.2 connEst 10 [20] (by decide)⟩

/-- Replacing the whole buffer content of a connection by an empty one
is the identity when the buffer was already empty. -/
theorem conn_set_empty_eq {c : Conn} (h : c.data = some []) :
    { c with data := some [] } = c := by
  cases c
  simp_all

/-- Popping as many values as the buffer holds returns them in order and
leaves the buffer empty. -/
theorem popN_all (vals : List Int) : ∀ c : Conn, c.data = some vals →
    popN vals.length c = some (vals, { c with data := some [] }) := by
  induction vals with
  | nil =>
    intro c h
    simp [popN, conn_set_empty_eq h]
  | cons v t ih =>
    intro c h
    have hpop : popFront c = PopRes.ok v { c with data := some t } := by
      simp [popFront, h]
    have hrec := ih { c with data := some t } (by simp)
    simp [popN, hpop, hrec]

/-- addNum iterated over a list agrees with addData. -/
theorem foldl_addNum (vals : List Int) : ∀ c : Conn,
    c.established = true → c.failed = false →
    List.foldl addNum c vals = addData c vals := by
  induction vals with
  | nil =>
    intro c he hf
    have hg : (!c.established || c.failed) = false := by
      rw [he, hf]
      rfl
    simp [addData, hg]
  | cons v t ih =>
    intro c he hf
    have hg : (!c.established || c.failed) = false := by
      rw [he, hf]
      rfl
    have h1 : addNum c v = { c with data := c.data.map (fun l => l ++ [v]) } := by
      simp [addNum, hg]
    rw [List.foldl_cons, h1, ih { c with data := c.data.map (fun l => l ++ [v]) } he hf]
    simp only [addData, hg, Bool.false_eq_true, if_false]
    cases hdc : c.data with
    | none => simp [hdc]
    | some l => simp [hdc]

/-- Claim C9: FIFO round trip.  On an established, non-failed connection
with an empty buffer, appending v1..vk (addData, or equivalently k calls
of addNum folded over the list) and then popping k times returns v1..vk
in order and restores the connection, in particular its empty buffer. -/
theorem c9_fifo_roundtrip (c : Conn) (vals : List Int)
    (he : c.established = true) (hf : c.failed = false) (hd : c.data = some []) :
    popN vals.length (addData c vals) = some (vals, c) ∧
    List.foldl addNum c vals = addData c vals := by
  have hg : (!c.established || c.failed) = false := by
    rw [he, hf]
    rfl
  have h1 : addData c vals = { c with data := some vals } := by
    simp [addData, hg, hd]
  constructor
  · rw [h1]
    have h2 := popN_all vals { c with data := some vals } (by simp)
    rw [h2]
    simp [conn_set_empty_eq hd]
  · exact foldl_addNum vals c he hf

/-- Witness for C9 at a concrete empty-buffer connection and the value
sequence [3, 1, 2]. -/
theorem c9_witness :
    popN 3 (addData { connEst with data := some [] } [3, 1, 2]) =
      some ([3, 1, 2], { connEst with data := some [] }) ∧
    List.foldl addNum { connEst with data := some [] } [3, 1, 2] =
      addData { connEst with data := some [] } [3, 1, 2] :=
  c9_fifo_roundtrip { connEst with data := some [] } [3, 1, 2]
    (by decide) (by decide) (by decide)

end SpineML

namespace SpineML

/-- At stage DONE with the counter below the ceiling the loop returns 0
(or the fuel sentinel -2), never -1. -/
theorem hsLoop_at4_ne_neg1 (f : Nat) (c : Conn) (w : Wire)
    (hn : c.noData < NO_DATA_MAX_COUNT) :
    (hsLoop f 4 c w).1 ≠ -1 := by
  cases f with
  | zero => simp [hsLoop]
  | succ g =>
    have hn2 : ¬c.noData ≥ NO_DATA_MAX_COUNT := by omega
    simp [hsLoop, hn2]

/-- One loop iteration of the handshake keeps the data pointer null on
every path except the stage-GETTINGNAME completion, which attaches the
buffer and moves to stage DONE with the counter reset. -/
theorem hsStep_preserves_data (stage : Nat) (c : Conn) (w : Wire)
    (hc : c.data = Option.none) :
    (match hsStep stage c w with
     | HSOut.fail c1 _ => c1.data = Option.none
     | HSOut.next s1 c1 _ => c1.data = Option.none ∨ (s1 = 4 ∧ c1.noData = 0)
     | HSOut.undef c1 _ => c1.data = Option.none) := by
  rcases stage with _ | _ | _ | _ | _ | n <;>
    simp only [hsStep] <;>
    first
    | (split_ifs <;> simp [hc])
    | simp [hc]

/-- If the handshake loop starts with a null data pointer and ends with
-1 (failure), the data pointer is still null: the buffer is attached
only on the path that completes the handshake and returns 0. -/
theorem hsLoop_fail_data_none (f : Nat) : ∀ (stage : Nat) (c : Conn) (w : Wire),
    c.data = Option.none → (hsLoop f stage c w).1 = -1 →
    (hsLoop f stage c w).2.1.data = Option.none := by
  induction f with
  | zero =>
    intro stage c w hc hres
    simp [hsLoop] at hres
  | succ f ih =>
    intro stage c w hc hres
    by_cases hcond : stage ≠ 4 ∧ c.noData < NO_DATA_MAX_COUNT
    · have hstep := hsStep_preserves_data stage c w hc
      rcases hout : hsStep stage c w with ⟨c1, w1⟩ | ⟨s1, c1, w1⟩ | ⟨c1, w1⟩
      · rw [hout] at hstep
        simp only [hsLoop, if_pos hcond, hout]
        exact hstep
      · rw [hout] at hstep
        simp only [hsLoop, if_pos hcond, hout] at hres ⊢
        rcases hstep with h1 | ⟨h4, hnd⟩
        · exact ih s1 c1 w1 h1 hres
        · subst h4
          exact absurd hres (hsLoop_at4_ne_neg1 f c1 w1 (by simp [hnd, NO_DATA_MAX_COUNT]))
      · -- the undefined-behaviour sentinel returns -3, never -1
        simp only [hsLoop, if_pos hcond, hout] at hres
        simp at hres
    · simp only [hsLoop, if_neg hcond] at hres ⊢
      by_cases hge : c.noData ≥ NO_DATA_MAX_COUNT
      · simp only [if_pos hge]
        exact hc
      · simp only [if_neg hge] at hres
        simp at hres

/-- Claim C10: getDataSize and popFront dereference the data pointer
unconditionally, and that pointer is null from construction until
handshake stage GETTINGNAME completes and attaches a buffer.  On the
freshly constructed connection and on any connection whose handshake
returned -1 (so stage DONE was never completed), both accessors hit the
null pointer (the nullDeref sentinel of the model); by contrast addNum
and addData check established and failed first and return without
touching the buffer. -/
theorem c10_null_until_attached :
    (connInit.data = Option.none ∧ popFront connInit = PopRes.nullDeref ∧
     getDataSize connInit = Option.none) ∧
    (∀ w : Wire, (doHandshake connInit w).1 = -1 →
       (doHandshake connInit w).2.1.data = Option.none ∧
       popFront (doHandshake connInit w).2.1 = PopRes.nullDeref ∧
       getDataSize (doHandshake connInit w).2.1 = Option.none) ∧
    (∀ (c : Conn) (v : Int) (vals : List Int), (!c.established || c.failed) = true →
       addNum c v = c ∧ addData c vals = c) := by
  refine ⟨⟨rfl, rfl, rfl⟩, ?_, ?_⟩
  · intro w hres
    have hd : (doHandshake connInit w).2.1.data = Option.none :=
      hsLoop_fail_data_none 600 0 { connInit with noData := 0 } w rfl hres
    exact ⟨hd, by simp [popFront, hd], by simp [getDataSize, hd]⟩
  · intro c v vals hg
    exact ⟨by simp [addNum, hg], by simp [addData, hg]⟩

/-- Witness for C10: a handshake failed by a bad first byte leaves the
data pointer null and both accessors at the null dereference; addNum and
addData on the fresh (not established) connection return it unchanged. -/
theorem c10_witness :
    ((doHandshake connInit ⟨[47], [], []⟩).2.1.data = Option.none ∧
     popFront (doHandshake connInit ⟨[47], [], []⟩).2.1 = PopRes.nullDeref ∧
     getDataSize (doHandshake connInit ⟨[47], [], []⟩).2.1 = Option.none) ∧
    (addNum connInit 5 = connInit ∧ addData connInit [5] = connInit) :=
  ⟨c10_null_until_attached.2.1 ⟨[47], [], []⟩ (by decide),
   c10_null_until_attached.2.2 connInit 5 [5] (by decide)⟩

end SpineML
